import Mathlib

/-!
Verification of `src/maps/build-map-layers.py` (skies-adsb map-layer build
script) against its natural-language specification.

The script is shallowly embedded: coordinates are rationals, the filesystem is
an explicit association list, the sequential pipeline becomes explicit state
passing, and Python exceptions become `Option`/`Except` values.  External
collaborators (geopandas clipping, HTTP, OSM conversion) are modelled as
opaque data or function parameters, exactly as the spec scopes them out.
-/

namespace SkiesAdsb

/-- Output directory constant, `OUTPUT_DIR = "../public/map-data"` (line 11). -/
def OUTPUT_DIR : String := "../public/map-data"

/-- `DEFAULT_ORIGIN_DISTANCE = 2.0` (line 20). -/
def DEFAULT_ORIGIN_DISTANCE : ℚ := 2

/-! ## Origin resolution (lines 38-48)

`origin_lat = os.environ.get("SKIES_ADSB_DEFAULT_ORIGIN_LATITUDE") or args.origin_lat`
uses Python `or`: the environment string wins iff it is truthy (non-empty);
otherwise the command-line float (possibly `None`) is the result. -/

/-- A resolved origin value before `float()` coercion: either the raw string
from the environment or the already-parsed command-line float. -/
inductive RawOrigin where
  | fromEnv (s : String)
  | fromArg (q : ℚ)
deriving DecidableEq, Repr

/-- Models `os.environ.get(VAR) or args.value` (lines 38-39): a non-empty
environment string is truthy and is taken as-is; an absent or empty
environment value falls through to the command-line value, which may itself
be absent. -/
def pyOrEnvArg (env : Option String) (arg : Option ℚ) : Option RawOrigin :=
  match env with
  | some s => if s = "" then arg.map RawOrigin.fromArg else some (RawOrigin.fromEnv s)
  | none => arg.map RawOrigin.fromArg

/-- Digit character to its value, `none` on non-digits. -/
def decDigit (c : Char) : Option Nat :=
  if c.isDigit then some (c.toNat - 48) else none

/-- Accumulate a non-empty digit string into a natural number. -/
def digitsVal (cs : List Char) : Option Nat :=
  if cs.isEmpty then none
  else cs.foldlM (fun n c => (decDigit c).map (fun d => 10 * n + d)) 0

/-- Value of a possibly-empty digit run (used for the parts around a decimal
point, where one side may be empty). -/
def digitsValD (cs : List Char) : Nat :=
  cs.foldl (fun n c => 10 * n + (c.toNat - 48)) 0

/-- Leading and trailing whitespace stripping on a character list, the
whitespace tolerance of Python `float()`. -/
def pyTrimChars (cs : List Char) : List Char :=
  ((cs.dropWhile Char.isWhitespace).reverse.dropWhile Char.isWhitespace).reverse

/-- Models Python `float()` applied to a string, for plain decimal literals:
optional sign, digits, optional decimal point and fraction digits (at least
one digit overall).  Exotic accepted forms (exponents, `inf`/`nan`,
underscore separators) are out of scope here and yield `none`, as do the
strings on which `float()` raises `ValueError`. -/
def pyFloatOfString (s : String) : Option ℚ :=
  let cs := pyTrimChars s.data
  let signed : ℚ × List Char :=
    match cs with
    | '-' :: rest => (-1, rest)
    | '+' :: rest => (1, rest)
    | _ => (1, cs)
  let sign := signed.1
  let body := signed.2
  let intPart := body.takeWhile (fun c => c.isDigit)
  let rest := body.dropWhile (fun c => c.isDigit)
  match rest with
  | [] => (digitsVal intPart).map (fun n => sign * n)
  | '.' :: frac =>
    if frac.all (fun c => c.isDigit) then
      if intPart.isEmpty && frac.isEmpty then none
      else
        some (sign * ((digitsValD intPart : ℚ) +
          (digitsValD frac : ℚ) / (10 : ℚ) ^ frac.length))
    else none
  | _ => none

/-- `float(origin_lat)` (lines 42-43): the environment string is parsed,
the command-line value is already a float and passes through.  A string
`float()` cannot parse raises `ValueError`, modelled as `none`. -/
def coerceFloat : RawOrigin → Option ℚ
  | RawOrigin.fromEnv s => pyFloatOfString s
  | RawOrigin.fromArg q => some q

/-- Outcome of the origin-resolution block (lines 41-48): either both
coordinates resolved, or the error-plus-usage message is printed and the
process exits with status 1. -/
structure OriginStep where
  printedErrorAndUsage : Bool
  exitCode : Option Nat
  origin : Option (RawOrigin × RawOrigin)
deriving DecidableEq, Repr

/-- Lines 41-48: if both `origin_lat` and `origin_lon` resolved to non-`None`
values the run proceeds; otherwise the error message and the argparse usage
text are printed and `exit(1)` runs. -/
def resolveOriginStep (envLat envLon : Option String) (argLat argLon : Option ℚ) :
    OriginStep :=
  match pyOrEnvArg envLat argLat, pyOrEnvArg envLon argLon with
  | some la, some lo =>
    { printedErrorAndUsage := false, exitCode := none, origin := some (la, lo) }
  | _, _ =>
    { printedErrorAndUsage := true, exitCode := some 1, origin := none }

/-! ## Bounding box (lines 60-77) -/

/-- Lines 63-71: the explicit pair is used only when both `--origin-left` and
`--origin-top` are given, otherwise `--origin-distance` serves for both;
`abs` is applied to the chosen offsets unconditionally. -/
def resolveOffsets (origin_left origin_top : Option ℚ) (origin_distance : ℚ) : ℚ × ℚ :=
  let chosen : ℚ × ℚ :=
    match origin_left, origin_top with
    | some l, some t => (l, t)
    | _, _ => (origin_distance, origin_distance)
  (|chosen.1|, |chosen.2|)

/-- The bounding box, stored in the script's internal field order
(`WEST, NORTH, EAST, SOUTH`). -/
structure BBox where
  west : ℚ
  north : ℚ
  east : ℚ
  south : ℚ
deriving DecidableEq, Repr

/-- Lines 74-77: `WEST = ORIGIN_LON - ORIGIN_LEFT`, `EAST = ORIGIN_LON +
ORIGIN_LEFT`, `NORTH = ORIGIN_LAT + ORIGIN_TOP`, `SOUTH = ORIGIN_LAT -
ORIGIN_TOP`. -/
def makeBoundingBox (origin_lat origin_lon origin_left origin_top : ℚ) : BBox :=
  { west := origin_lon - origin_left
    north := origin_lat + origin_top
    east := origin_lon + origin_left
    south := origin_lat - origin_top }

/-! ## Geometry and polygon-to-line conversion (lines 87-96) -/

/-- A lat/lon vertex. -/
abbrev Coord := ℚ × ℚ

/-- A shapely `Polygon`: one exterior ring plus interior hole rings; the ring
coordinate sequences are as `exterior.coords` exposes them. -/
structure PolygonG where
  exterior : List Coord
  interiors : List (List Coord)
deriving DecidableEq, Repr

/-- The shapely geometry variants the script can encounter. -/
inductive Geometry where
  | point (c : Coord)
  | multiPoint (cs : List Coord)
  | lineString (coords : List Coord)
  | multiLineString (lines : List (List Coord))
  | polygon (p : PolygonG)
  | multiPolygon (polys : List PolygonG)
deriving DecidableEq, Repr

/-- True exactly on the `Polygon`/`MultiPolygon` variants, the
`isinstance(geometry, (Polygon, MultiPolygon))` test (line 88). -/
def isPolygonal : Geometry → Bool
  | Geometry.polygon _ => true
  | Geometry.multiPolygon _ => true
  | _ => false

/-- `convert_polygons_to_lines` (lines 87-96): a `Polygon` becomes
`LineString(list(geometry.exterior.coords))`, a `MultiPolygon` becomes a
`MultiLineString` of the member polygons' exterior rings, everything else is
returned unchanged. -/
def convert_polygons_to_lines : Geometry → Geometry
  | Geometry.polygon p => Geometry.lineString p.exterior
  | Geometry.multiPolygon polys =>
    Geometry.multiLineString (polys.map (fun poly => poly.exterior))
  | g => g

/-! ## Shapefile clipping and the static-layer loop (lines 101-172) -/

/-- The geometry column of a GeoDataFrame read from a shapefile. -/
abbrev ShapeData := List Geometry

/-- `clip_shapefile_to_bounding_box` (lines 101-113).  The geopandas reader
and clipper are external collaborators: the filesystem is an association list
from path to shape data, and `gdf.clip(bounds)` is the parameter `libClip`.
A missing path raises `FileNotFoundError`, which the function catches,
reporting the error and returning `None`; after a successful clip each
geometry goes through `convert_polygons_to_lines`. -/
def clip_shapefile_to_bounding_box (libClip : BBox → ShapeData → ShapeData)
    (shapefiles : List (String × ShapeData)) (shape_file : String) (bb : BBox) :
    Option ShapeData :=
  match shapefiles.lookup shape_file with
  | some gdf => some ((libClip bb gdf).map convert_polygons_to_lines)
  | none => none

/-- A file in a directory, for the output-side filesystem model. -/
structure FSFile where
  dir : String
  name : String
deriving DecidableEq, Repr

/-- `MAP_LAYERS_10M` (lines 138-146). -/
def MAP_LAYERS_10M : List (String × String) :=
  [("data/10m_cultural/10m_cultural/ne_10m_admin_1_states_provinces.shp", "states_provinces"),
   ("data/10m_cultural/10m_cultural/ne_10m_airports.shp", "airports"),
   ("data/10m_cultural/10m_cultural/ne_10m_urban_areas.shp", "urban_areas"),
   ("data/10m_cultural/10m_cultural/ne_10m_admin_2_counties.shp", "counties"),
   ("data/10m_cultural/10m_cultural/ne_10m_roads.shp", "roads"),
   ("data/10m_physical/ne_10m_lakes.shp", "lakes"),
   ("data/10m_physical/ne_10m_rivers_lake_centerlines.shp", "rivers")]

/-- `MAP_LAYERS_110M` (lines 148-152). -/
def MAP_LAYERS_110M : List (String × String) :=
  [("data/110m_cultural/ne_110m_admin_1_states_provinces.shp", "states_provinces"),
   ("data/110m_physical/ne_110m_lakes.shp", "lakes"),
   ("data/110m_physical/ne_110m_rivers_lake_centerlines.shp", "rivers")]

/-- Lines 154-157: layer list selection by the `--build-110m-maps` flag. -/
def MAP_LAYERS (build_110m_maps : Bool) : List (String × String) :=
  if build_110m_maps then MAP_LAYERS_110M else MAP_LAYERS_10M

/-- The Python exception message raised when `clipped_map.to_file(...)` is
called on the `None` returned for a missing shapefile (line 172). -/
def noneToFileError : String :=
  "AttributeError: NoneType object has no attribute to_file"

/-- The `for map_data, output_name in MAP_LAYERS` loop (lines 169-172).
Each iteration clips and then unconditionally calls
`clipped_map.to_file(f"OUTPUT_DIR/output_name.geojson")`; when the clip
returned `None` the attribute access raises, the exception is not caught
anywhere, and the loop (and the whole script) aborts.  `Except.error`
carries the uncaught exception, `Except.ok` the files written. -/
def runMapLayersLoop (libClip : BBox → ShapeData → ShapeData)
    (shapefiles : List (String × ShapeData)) (bb : BBox) :
    List (String × String) → Except String (List FSFile)
  | [] => Except.ok []
  | (map_data, output_name) :: rest =>
    match clip_shapefile_to_bounding_box libClip shapefiles map_data bb with
    | some _clipped =>
      match runMapLayersLoop libClip shapefiles bb rest with
      | Except.ok outs =>
        Except.ok (FSFile.mk OUTPUT_DIR (output_name ++ ".geojson") :: outs)
      | Except.error e => Except.error e
    | none => Except.error noneToFileError

/-! ## FAA airspace partition (lines 184-195) -/

/-- A row of the clipped airspace GeoDataFrame: its `CLASS` column value and
its geometry. -/
structure AirspaceFeature where
  cls : String
  geometry : Geometry
deriving DecidableEq, Repr

/-- `AIRSPACE` (lines 184-188). -/
def AIRSPACE : List (String × String) :=
  [("B", "airspace_class_b"), ("C", "airspace_class_c"), ("D", "airspace_class_d")]

/-- The row selection `clipped_airspace[clipped_airspace["CLASS"] == class_name]`
(line 194). -/
def selectAirspaceClass (layer : List AirspaceFeature) (class_name : String) :
    List AirspaceFeature :=
  layer.filter (fun row => row.cls == class_name)

/-- The `for class_name, output_name in AIRSPACE` loop (lines 192-195): each
of the three iterations selects its class and writes
`OUTPUT_DIR/output_name.geojson`, whether or not the selection is empty. -/
def airspaceOutputs (layer : List AirspaceFeature) :
    List (String × List AirspaceFeature) :=
  AIRSPACE.map (fun entry => (entry.2, selectAirspaceClass layer entry.1))

/-! ## Output-directory housekeeping (lines 11-12 and 118-131) -/

/-- Filesystem state for the housekeeping steps: the set of directories and
the set of files (each file a directory/name pair; `glob` with a `*` pattern
only inspects the named directory, never subdirectories). -/
structure FSState where
  dirs : List String
  files : List FSFile
deriving DecidableEq, Repr

/-- `os.makedirs(OUTPUT_DIR, exist_ok=True)` (line 12): the output directory
is created when absent and left alone when present; no file changes. -/
def makedirsOutputDir (st : FSState) : FSState :=
  { st with dirs := if OUTPUT_DIR ∈ st.dirs then st.dirs else st.dirs ++ [OUTPUT_DIR] }

/-- The patterns purged by `clean_output_directory` (line 122). -/
def cleanPatterns : List String := ["*.geojson", "*.json"]

/-- Whether a file name is hidden in the `glob` sense (starts with a dot). -/
def isHiddenName (name : String) : Bool :=
  match name.data with
  | c :: _ => c == '.'
  | [] => false

/-- `glob` match for the `*<literal suffix>` patterns used here: the name must
end with the literal part after the star, and `glob` never matches hidden
files (names starting with a dot) with a `*` pattern. -/
def starGlobMatch (pat name : String) : Bool :=
  (pat.data.drop 1).isSuffixOf name.data && !(isHiddenName name)

/-- Whether a file name is hit by one of the two purge patterns. -/
def matchesCleanGlob (name : String) : Bool :=
  cleanPatterns.any (fun pat => starGlobMatch pat name)

/-- `clean_output_directory` (lines 118-131): every file in `OUTPUT_DIR`
matching `*.geojson` or `*.json` is removed; nothing else — no file in any
other directory, no non-matching file, no directory — is touched. -/
def clean_output_directory (st : FSState) : FSState :=
  { st with
    files := st.files.filter (fun f => !(f.dir == OUTPUT_DIR && matchesCleanGlob f.name)) }

/-- Lines 12 and 131 in program order: the directory is created at import
time, then cleaned, both before any layer write (the first write is the
`MAP_LAYERS` loop at line 172). -/
def staticSetup (st : FSState) : FSState :=
  clean_output_directory (makedirsOutputDir st)

/-! ## Boolean command-line flags (lines 28-30) -/

/-- Models argparse `type=bool, default=False`, used for
`--show-geopandas-warnings`, `--build-110m-maps` and `--skip-aerodromes`
(lines 28-30): an omitted flag keeps the default `False`; a supplied value
string is passed through Python `bool()`, which is `True` for every
non-empty string (including `"false"` and `"0"`) and `False` only for the
empty string. -/
def parseBoolFlag : Option String → Bool
  | none => false
  | some s => !(s == "")

/-! ## Overpass queries (lines 206-228 and 272-289) -/

/-- `bounds = f"{SOUTH},{WEST},{NORTH},{EAST}"` (lines 209 and 275): the
bounding box rendered in the Overpass south,west,north,east axis order. -/
def overpassBounds (bb : BBox) : String :=
  toString bb.south ++ "," ++ toString bb.west ++ "," ++
    toString bb.north ++ "," ++ toString bb.east

/-- Text of the geometry query (lines 210-219) up to the first `{bounds}`
interpolation. -/
def geomQueryPre (osm_value : String) : String :=
  "\n            [out:json][timeout:25];\n            (    \n            way[\"aeroway\"=\"" ++
    osm_value ++ "\"]("

/-- Text of the geometry query between the two `{bounds}` interpolations. -/
def geomQueryMid (osm_value : String) : String :=
  ");\n            relation[\"aeroway\"=\"" ++ osm_value ++ "\"]("

/-- Text of the geometry query after the second `{bounds}` interpolation. -/
def geomQuerySuf : String :=
  ");\n            );\n            out body;\n            >;\n            out skel qt;\n        "

/-- The Overpass QL query string built by `generate_aerodrome_runway_geometry`
(lines 210-219), with the bounding box interpolated twice. -/
def aerowayGeometryQuery (osm_value : String) (bb : BBox) : String :=
  geomQueryPre osm_value ++ overpassBounds bb ++ geomQueryMid osm_value ++
    overpassBounds bb ++ geomQuerySuf

/-- Text of the origins query (lines 276-283) up to the first `{bounds}`. -/
def originsQueryPre : String :=
  "\n            [out:json][timeout:25];\n            (    \n            way[\"aeroway\"=\"aerodrome\"]("

/-- Text of the origins query between the two `{bounds}` interpolations. -/
def originsQueryMid : String :=
  ");\n            relation[\"aeroway\"=\"aerodrome\"]("

/-- Text of the origins query after the second `{bounds}`. -/
def originsQuerySuf : String :=
  ");\n            );\n            out center tags;\n        "

/-- The Overpass QL query string built by `get_aerodrome_origins_as_lat_lon`
(lines 276-283). -/
def aerodromeOriginsQuery (bb : BBox) : String :=
  originsQueryPre ++ overpassBounds bb ++ originsQueryMid ++
    overpassBounds bb ++ originsQuerySuf

/-- Spec-side view of the claim: the tuple `(SOUTH, WEST, NORTH, EAST)`
derived from the internal `(west, north, east, south)` box. -/
def swneTuple (bb : BBox) : ℚ × ℚ × ℚ × ℚ := (bb.south, bb.west, bb.north, bb.east)

/-- Spec-side rendering of a coordinate 4-tuple as a comma-joined string, in
the tuple's own order. -/
def renderBoundsTuple : ℚ × ℚ × ℚ × ℚ → String
  | (a, b, c, d) => toString a ++ "," ++ toString b ++ "," ++ toString c ++ "," ++ toString d

/-! ## The skip-aerodromes path (lines 235-252 and 291-296) -/

/-- A content-bearing filesystem for the fetch/merge steps: association list
from path string (exactly as passed to `open`/`gpd.read_file`, so cwd-relative
paths and `OUTPUT_DIR`-prefixed paths are distinct keys) to file content. -/
abbrev PathFS := List (String × String)

/-- `open(path, 'w')` followed by a dump: overwrite or create. -/
def writeTextFile (fs : PathFS) (path content : String) : PathFS :=
  (fs.filter (fun e => !(e.1 == path))) ++ [(path, content)]

/-- `OVERPASS_QUERIES` (lines 230-233). -/
def OVERPASS_QUERIES : List (String × String) :=
  [("aerodrome", "aerodrome.geojson"), ("runway", "tmp_runway.geojson")]

/-- The serialized form of `json.dump({}, f)`. -/
def emptyJsonObject : String := "\x7b\x7d"

/-- The skip branch of the `OVERPASS_QUERIES` loop (lines 239-242): for each
query it executes `with open(output_file_name, 'w') as f: json.dump({}, f)`
— note the bare `output_file_name`, with no `OUTPUT_DIR` prefix, so the
placeholder lands in the current working directory. -/
def skipAerodromeQueriesWrites (fs : PathFS) : PathFS :=
  OVERPASS_QUERIES.foldl (fun acc entry => writeTextFile acc entry.2 emptyJsonObject) fs

/-- The path the merge step reads aerodromes from (line 249):
`f"{OUTPUT_DIR}/{OVERPASS_QUERIES[0][1]}"`. -/
def aerodromeGeojsonPath : String :=
  OUTPUT_DIR ++ "/" ++ (OVERPASS_QUERIES.getD 0 ("", "")).2

/-- The path the merge step reads runways from (lines 247 and 250):
`tmp_runway_geojson = f"{OUTPUT_DIR}/{OVERPASS_QUERIES[1][1]}"`. -/
def tmp_runway_geojson : String :=
  OUTPUT_DIR ++ "/" ++ (OVERPASS_QUERIES.getD 1 ("", "")).2

/-! ## Theorems -/

/-- C1: the claim says a missing source shapefile makes the clipping step
report the error and skip the layer, with no exception escaping, later layers
still processed, and exit code 0.  Evaluating the embedded `MAP_LAYERS` loop
on a run where `ne_10m_airports.shp` is absent (only the first 10m layer
exists) shows the opposite: `clip_shapefile_to_bounding_box` does return
`None` after reporting, but the loop body dereferences that `None` with
`.to_file`, so an uncaught `AttributeError` aborts the whole loop. -/
theorem missing_shapefile_aborts_run :
    runMapLayersLoop (fun _ gdf => gdf)
      [("data/10m_cultural/10m_cultural/ne_10m_admin_1_states_provinces.shp",
        [Geometry.point (0, 0)])]
      (makeBoundingBox 1 2 3 3) (MAP_LAYERS false) = Except.error noneToFileError := by
  rfl

/-- C2: the claim says that with `--skip-aerodromes` set, the empty JSON
placeholder is written at the paths in the output directory where the real
fetch results would go, so the spatial-join step finds the files.  Evaluating
the embedded skip branch on an empty filesystem shows the placeholders land
at the bare cwd-relative names `aerodrome.geojson` / `tmp_runway.geojson`,
while the join step reads the `OUTPUT_DIR`-prefixed paths, which remain
absent. -/
theorem skip_aerodromes_misplaced_placeholder :
    (skipAerodromeQueriesWrites []).lookup "aerodrome.geojson" = some emptyJsonObject ∧
    (skipAerodromeQueriesWrites []).lookup "tmp_runway.geojson" = some emptyJsonObject ∧
    (skipAerodromeQueriesWrites []).lookup aerodromeGeojsonPath = none ∧
    (skipAerodromeQueriesWrites []).lookup tmp_runway_geojson = none ∧
    aerodromeGeojsonPath ≠ "aerodrome.geojson" ∧
    tmp_runway_geojson ≠ "tmp_runway.geojson" := by
  decide

/-- C3: from any origin, a positive symmetric distance `d` gives the box
`west = lon − d`, `east = lon + d`, `north = lat + d`, `south = lat − d`
with `west < east` and `south < north`; an explicit left/top pair is used
through its absolute values, and nonzero offsets give the same shape and
invariants with `|l|`, `|t|` in place of `d`. -/
theorem bounding_box_from_origin (lat lon d l t : ℚ) :
    (0 < d →
      makeBoundingBox lat lon (resolveOffsets none none d).1 (resolveOffsets none none d).2 =
        BBox.mk (lon - d) (lat + d) (lon + d) (lat - d) ∧
      (makeBoundingBox lat lon (resolveOffsets none none d).1
        (resolveOffsets none none d).2).west <
        (makeBoundingBox lat lon (resolveOffsets none none d).1
          (resolveOffsets none none d).2).east ∧
      (makeBoundingBox lat lon (resolveOffsets none none d).1
        (resolveOffsets none none d).2).south <
        (makeBoundingBox lat lon (resolveOffsets none none d).1
          (resolveOffsets none none d).2).north) ∧
    (l ≠ 0 → t ≠ 0 →
      makeBoundingBox lat lon (resolveOffsets (some l) (some t) d).1
        (resolveOffsets (some l) (some t) d).2 =
        BBox.mk (lon - |l|) (lat + |t|) (lon + |l|) (lat - |t|) ∧
      (makeBoundingBox lat lon (resolveOffsets (some l) (some t) d).1
        (resolveOffsets (some l) (some t) d).2).west <
        (makeBoundingBox lat lon (resolveOffsets (some l) (some t) d).1
          (resolveOffsets (some l) (some t) d).2).east ∧
      (makeBoundingBox lat lon (resolveOffsets (some l) (some t) d).1
        (resolveOffsets (some l) (some t) d).2).south <
        (makeBoundingBox lat lon (resolveOffsets (some l) (some t) d).1
          (resolveOffsets (some l) (some t) d).2).north) := by
  constructor
  · intro hd
    have habs : |d| = d := abs_of_pos hd
    refine ⟨?_, ?_, ?_⟩ <;> simp [resolveOffsets, makeBoundingBox, habs] <;> linarith
  · intro hl ht
    have hl0 : 0 < |l| := abs_pos.mpr hl
    have ht0 : 0 < |t| := abs_pos.mpr ht
    refine ⟨?_, ?_, ?_⟩ <;> simp [resolveOffsets, makeBoundingBox] <;> linarith

/-- C3 witness: the theorem instantiated at origin (1, 2) with distance 3 and
with the explicit pair (−4, 5). -/
theorem bounding_box_from_origin_witness :
    makeBoundingBox 1 2 (resolveOffsets none none 3).1 (resolveOffsets none none 3).2 =
      BBox.mk (-1) 4 5 (-2) ∧
    (makeBoundingBox 1 2 (resolveOffsets (some (-4)) (some 5) 3).1
      (resolveOffsets (some (-4)) (some 5) 3).2).south <
      (makeBoundingBox 1 2 (resolveOffsets (some (-4)) (some 5) 3).1
        (resolveOffsets (some (-4)) (some 5) 3).2).north := by
  constructor
  · have h := ((bounding_box_from_origin 1 2 3 (-4) 5).1 (by norm_num)).1
    rw [h]
    norm_num
  · exact ((bounding_box_from_origin 1 2 3 (-4) 5).2 (by norm_num) (by norm_num)).2.2

/-- C4: `convert_polygons_to_lines` turns a polygon into the line of its
exterior ring, a multi-polygon into the multi-line of the member exterior
rings (interior holes discarded in both cases), and returns every
non-polygonal geometry unchanged. -/
theorem convert_polygons_to_lines_spec (p : PolygonG) (polys : List PolygonG)
    (g : Geometry) :
    convert_polygons_to_lines (Geometry.polygon p) = Geometry.lineString p.exterior ∧
    convert_polygons_to_lines (Geometry.multiPolygon polys) =
      Geometry.multiLineString (polys.map (fun poly => poly.exterior)) ∧
    (isPolygonal g = false → convert_polygons_to_lines g = g) := by
  refine ⟨rfl, rfl, fun h => ?_⟩
  cases g <;> simp_all [isPolygonal, convert_polygons_to_lines]

/-- C4 witness: a polygon with an interior hole loses the hole and keeps the
exterior vertex sequence; a point passes through unchanged. -/
theorem convert_polygons_to_lines_spec_witness :
    convert_polygons_to_lines
      (Geometry.polygon (PolygonG.mk [(0, 0), (4, 0), (4, 4), (0, 0)]
        [[(1, 1), (2, 1), (2, 2), (1, 1)]])) =
      Geometry.lineString [(0, 0), (4, 0), (4, 4), (0, 0)] ∧
    convert_polygons_to_lines (Geometry.point (7, 9)) = Geometry.point (7, 9) := by
  exact ⟨(convert_polygons_to_lines_spec
      (PolygonG.mk [(0, 0), (4, 0), (4, 4), (0, 0)] [[(1, 1), (2, 1), (2, 2), (1, 1)]])
      [] (Geometry.point (7, 9))).1,
    (convert_polygons_to_lines_spec
      (PolygonG.mk [] []) [] (Geometry.point (7, 9))).2.2 rfl⟩

/-- C5: each of the three airspace output files holds exactly the clipped
features whose `CLASS` equals its letter, the loop always emits the three
files `airspace_class_b/c/d` (even when a selection is empty), and a class-A
feature appears in none of them. -/
theorem airspace_class_partition (layer : List AirspaceFeature) (f : AirspaceFeature) :
    (f ∈ selectAirspaceClass layer "B" ↔ f ∈ layer ∧ f.cls = "B") ∧
    (f ∈ selectAirspaceClass layer "C" ↔ f ∈ layer ∧ f.cls = "C") ∧
    (f ∈ selectAirspaceClass layer "D" ↔ f ∈ layer ∧ f.cls = "D") ∧
    (airspaceOutputs layer).map Prod.fst =
      ["airspace_class_b", "airspace_class_c", "airspace_class_d"] ∧
    (f.cls = "A" → ∀ pair ∈ airspaceOutputs layer, f ∉ pair.2) := by
  refine ⟨?_, ?_, ?_, by simp [airspaceOutputs, AIRSPACE], ?_⟩
  · simp [selectAirspaceClass, List.mem_filter]
  · simp [selectAirspaceClass, List.mem_filter]
  · simp [selectAirspaceClass, List.mem_filter]
  · intro hA pair hpair hf
    simp [airspaceOutputs, AIRSPACE] at hpair
    rcases hpair with h | h | h <;> rw [h] at hf <;>
      simp [selectAirspaceClass, List.mem_filter, hA] at hf

/-- C5 witness: a two-feature layer with classes A and B; the B file keeps
the B feature, the loop emits all three file names, and the A feature is in
no output. -/
theorem airspace_class_partition_witness :
    AirspaceFeature.mk "B" (Geometry.point (0, 0)) ∈
      selectAirspaceClass
        [AirspaceFeature.mk "A" (Geometry.point (1, 1)),
         AirspaceFeature.mk "B" (Geometry.point (0, 0))] "B" ∧
    (airspaceOutputs [AirspaceFeature.mk "A" (Geometry.point (1, 1))]).map Prod.fst =
      ["airspace_class_b", "airspace_class_c", "airspace_class_d"] ∧
    (∀ pair ∈ airspaceOutputs [AirspaceFeature.mk "A" (Geometry.point (1, 1))],
      AirspaceFeature.mk "A" (Geometry.point (1, 1)) ∉ pair.2) := by
  refine ⟨?_, ?_, ?_⟩
  · exact (airspace_class_partition
      [AirspaceFeature.mk "A" (Geometry.point (1, 1)),
       AirspaceFeature.mk "B" (Geometry.point (0, 0))]
      (AirspaceFeature.mk "B" (Geometry.point (0, 0)))).1.mpr ⟨by decide, rfl⟩
  · exact (airspace_class_partition [AirspaceFeature.mk "A" (Geometry.point (1, 1))]
      (AirspaceFeature.mk "A" (Geometry.point (1, 1)))).2.2.2.1
  · exact (airspace_class_partition [AirspaceFeature.mk "A" (Geometry.point (1, 1))]
      (AirspaceFeature.mk "A" (Geometry.point (1, 1)))).2.2.2.2 rfl

/-- C6: when neither the environment variables nor the command-line flags
yield an origin latitude and longitude, the script prints the error plus the
usage text and exits with status 1; when both coordinates resolve, that exit
path is not taken. -/
theorem origin_missing_exits_one (envLat envLon : Option String)
    (argLat argLon : Option ℚ) :
    (pyOrEnvArg envLat argLat = none ∨ pyOrEnvArg envLon argLon = none →
      resolveOriginStep envLat envLon argLat argLon =
        OriginStep.mk true (some 1) none) ∧
    (∀ la lo, pyOrEnvArg envLat argLat = some la → pyOrEnvArg envLon argLon = some lo →
      (resolveOriginStep envLat envLon argLat argLon).exitCode = none ∧
      (resolveOriginStep envLat envLon argLat argLon).printedErrorAndUsage = false) := by
  constructor
  · intro h
    unfold resolveOriginStep
    rcases hlat : pyOrEnvArg envLat argLat with _ | la <;>
      rcases hlon : pyOrEnvArg envLon argLon with _ | lo <;>
      simp_all
  · intro la lo h1 h2
    unfold resolveOriginStep
    rw [h1, h2]
    exact ⟨rfl, rfl⟩

/-- C6 witness: with no environment values and no flags the step exits 1
with usage printed; with both environment values set the exit path is not
taken. -/
theorem origin_missing_exits_one_witness :
    resolveOriginStep none none none none = OriginStep.mk true (some 1) none ∧
    (resolveOriginStep (some "33.9425") (some "-118.408") none none).exitCode = none := by
  refine ⟨(origin_missing_exits_one none none none none).1 (Or.inl rfl), ?_⟩
  exact ((origin_missing_exits_one (some "33.9425") (some "-118.408") none none).2
    (RawOrigin.fromEnv "33.9425") (RawOrigin.fromEnv "-118.408")
    (by decide) (by decide)).1

/-- C7 counterexample: with the environment variable present but equal to the
empty string and a command-line value present, Python `or` discards the
falsy environment string, so the command-line value — not the environment
value — is the one used. -/
theorem env_precedence_counterexample :
    pyOrEnvArg (some "") (some 5) = some (RawOrigin.fromArg 5) ∧
    pyOrEnvArg (some "") (some 5) ≠ some (RawOrigin.fromEnv "") := by
  decide

/-- C7 (amended): when both an origin environment value and a command-line
value are present and the environment value is non-empty, the environment
value is the one used, and the chosen value is coerced with `float()` before
use. -/
theorem env_precedence_nonempty (s : String) (q : ℚ) (hs : s ≠ "") :
    pyOrEnvArg (some s) (some q) = some (RawOrigin.fromEnv s) ∧
    (pyOrEnvArg (some s) (some q)).map coerceFloat = some (pyFloatOfString s) := by
  have h1 : pyOrEnvArg (some s) (some q) = some (RawOrigin.fromEnv s) := by
    simp [pyOrEnvArg, hs]
  exact ⟨h1, by rw [h1]; rfl⟩

/-- C7 witness: environment value `"12.5"` beats command-line `3` and is
coerced to the rational 25/2. -/
theorem env_precedence_nonempty_witness :
    pyOrEnvArg (some "12.5") (some 3) = some (RawOrigin.fromEnv "12.5") ∧
    (pyOrEnvArg (some "12.5") (some 3)).map coerceFloat = some (pyFloatOfString "12.5") ∧
    pyFloatOfString "12.5" = some (25 / 2 : ℚ) := by
  have h := env_precedence_nonempty "12.5" 3 (by decide)
  refine ⟨h.1, h.2, ?_⟩
  simp +decide [pyFloatOfString, pyTrimChars, digitsValD]
  norm_num

/-- C8: every Overpass query the script builds — the aeroway geometry query
for any tag value (`aerodrome`, `runway`) and the aerodrome-origins query —
embeds the bounding box as the comma-joined rendering of the tuple
`(SOUTH, WEST, NORTH, EAST)` taken from the internal
`(west, north, east, south)` box. -/
theorem overpass_queries_swne (bb : BBox) (osm_value : String) :
    (∃ p s : String, aerowayGeometryQuery osm_value bb =
      p ++ renderBoundsTuple (swneTuple bb) ++ s) ∧
    (∃ p s : String, aerodromeOriginsQuery bb =
      p ++ renderBoundsTuple (swneTuple bb) ++ s) := by
  have hb : renderBoundsTuple (swneTuple bb) = overpassBounds bb := rfl
  constructor
  · refine ⟨geomQueryPre osm_value,
      geomQueryMid osm_value ++ overpassBounds bb ++ geomQuerySuf, ?_⟩
    rw [hb]
    simp [aerowayGeometryQuery, String.append_assoc]
  · refine ⟨originsQueryPre,
      originsQueryMid ++ overpassBounds bb ++ originsQuerySuf, ?_⟩
    rw [hb]
    simp [aerodromeOriginsQuery, String.append_assoc]

/-- C9: before any layer is written the setup purges from `OUTPUT_DIR`
exactly the files matching `*.geojson` or `*.json` (glob semantics: literal
suffix, hidden files exempt), leaves every other file — other names, other
extensions, other directories — in place, creates the output directory when
absent, and never deletes a directory. -/
theorem clean_output_directory_spec (st : FSState) (f : FSFile) :
    (f ∈ (staticSetup st).files ↔
      f ∈ st.files ∧ ¬(f.dir = OUTPUT_DIR ∧ matchesCleanGlob f.name = true)) ∧
    OUTPUT_DIR ∈ (staticSetup st).dirs ∧
    (∀ d ∈ st.dirs, d ∈ (staticSetup st).dirs) := by
  have hfiles : (staticSetup st).files =
      st.files.filter (fun g => !(g.dir == OUTPUT_DIR && matchesCleanGlob g.name)) := rfl
  have hdirs : (staticSetup st).dirs =
      if OUTPUT_DIR ∈ st.dirs then st.dirs else st.dirs ++ [OUTPUT_DIR] := rfl
  refine ⟨?_, ?_, ?_⟩
  · rw [hfiles, List.mem_filter]
    constructor
    · rintro ⟨hmem, hp⟩
      refine ⟨hmem, fun hand => ?_⟩
      rcases hand with ⟨h1, h2⟩
      rw [h1, h2] at hp
      simp at hp
    · rintro ⟨hmem, hcond⟩
      refine ⟨hmem, ?_⟩
      by_cases h1 : f.dir = OUTPUT_DIR
      · have h2 : matchesCleanGlob f.name = false := by
          by_cases h2 : matchesCleanGlob f.name = true
          · exact absurd ⟨h1, h2⟩ hcond
          · simpa using h2
        simp [h1, h2]
      · simp [h1]
  · rw [hdirs]
    by_cases h : OUTPUT_DIR ∈ st.dirs
    · simp [h]
    · simp [h]
  · intro d hd
    rw [hdirs]
    by_cases h : OUTPUT_DIR ∈ st.dirs
    · simp [h, hd]
    · simp [h, hd]

/-- C9 witness: in a state with one directory `other` and three files, the
matching file in `OUTPUT_DIR` is gone, a `.txt` file in `OUTPUT_DIR` and a
`.json` file elsewhere survive, and both `other` and `OUTPUT_DIR` are among
the directories afterwards. -/
theorem clean_output_directory_spec_witness :
    (FSFile.mk OUTPUT_DIR "lakes.geojson" ∉
      (staticSetup (FSState.mk ["other"]
        [FSFile.mk OUTPUT_DIR "lakes.geojson", FSFile.mk OUTPUT_DIR "notes.txt",
         FSFile.mk "other" "a.json"])).files) ∧
    (FSFile.mk OUTPUT_DIR "notes.txt" ∈
      (staticSetup (FSState.mk ["other"]
        [FSFile.mk OUTPUT_DIR "lakes.geojson", FSFile.mk OUTPUT_DIR "notes.txt",
         FSFile.mk "other" "a.json"])).files) ∧
    (FSFile.mk "other" "a.json" ∈
      (staticSetup (FSState.mk ["other"]
        [FSFile.mk OUTPUT_DIR "lakes.geojson", FSFile.mk OUTPUT_DIR "notes.txt",
         FSFile.mk "other" "a.json"])).files) ∧
    OUTPUT_DIR ∈ (staticSetup (FSState.mk ["other"]
        [FSFile.mk OUTPUT_DIR "lakes.geojson", FSFile.mk OUTPUT_DIR "notes.txt",
         FSFile.mk "other" "a.json"])).dirs ∧
    "other" ∈ (staticSetup (FSState.mk ["other"]
        [FSFile.mk OUTPUT_DIR "lakes.geojson", FSFile.mk OUTPUT_DIR "notes.txt",
         FSFile.mk "other" "a.json"])).dirs := by
  refine ⟨?_, ?_, ?_, ?_, ?_⟩
  · intro hmem
    have h := (clean_output_directory_spec (FSState.mk ["other"]
      [FSFile.mk OUTPUT_DIR "lakes.geojson", FSFile.mk OUTPUT_DIR "notes.txt",
       FSFile.mk "other" "a.json"]) (FSFile.mk OUTPUT_DIR "lakes.geojson")).1.mp hmem
    exact h.2 ⟨rfl, by decide⟩
  · exact (clean_output_directory_spec (FSState.mk ["other"]
      [FSFile.mk OUTPUT_DIR "lakes.geojson", FSFile.mk OUTPUT_DIR "notes.txt",
       FSFile.mk "other" "a.json"]) (FSFile.mk OUTPUT_DIR "notes.txt")).1.mpr
      ⟨by decide, by decide⟩
  · exact (clean_output_directory_spec (FSState.mk ["other"]
      [FSFile.mk OUTPUT_DIR "lakes.geojson", FSFile.mk OUTPUT_DIR "notes.txt",
       FSFile.mk "other" "a.json"]) (FSFile.mk "other" "a.json")).1.mpr
      ⟨by decide, by decide⟩
  · exact (clean_output_directory_spec (FSState.mk ["other"]
      [FSFile.mk OUTPUT_DIR "lakes.geojson", FSFile.mk OUTPUT_DIR "notes.txt",
       FSFile.mk "other" "a.json"]) (FSFile.mk "x" "y")).2.1
  · exact (clean_output_directory_spec (FSState.mk ["other"]
      [FSFile.mk OUTPUT_DIR "lakes.geojson", FSFile.mk OUTPUT_DIR "notes.txt",
       FSFile.mk "other" "a.json"]) (FSFile.mk "x" "y")).2.2 "other" (by decide)

/-- C10: for the three `type=bool` flags, any non-empty supplied value string
(including `"false"` and `"0"`) parses to `true`; the flag is `false` exactly
when omitted or given the empty string. -/
theorem bool_flags_truthiness (s : String) :
    (s ≠ "" → parseBoolFlag (some s) = true) ∧
    parseBoolFlag (some "") = false ∧
    parseBoolFlag none = false := by
  refine ⟨fun h => ?_, rfl, rfl⟩
  simp [parseBoolFlag, h]

/-- C10 witness: `"false"` and `"0"` both set the flag, omission leaves it
unset. -/
theorem bool_flags_truthiness_witness :
    parseBoolFlag (some "false") = true ∧
    parseBoolFlag (some "0") = true ∧
    parseBoolFlag none = false := by
  exact ⟨(bool_flags_truthiness "false").1 (by decide),
    (bool_flags_truthiness "0").1 (by decide),
    (bool_flags_truthiness "x").2.2⟩

end SkiesAdsb
